import Mathlib

/-!
Verification of the OrcaNet training/validation scheduler and its streaming
batch-generation pipeline (orcanet/backend.py and orcanet/core.py), via a
shallow embedding of the relevant functions into Lean.

Conventions of the embedding:
* h5py datasets are lists; the slice `ds[a : a + b]` becomes
  `(l.drop a).take b` (h5py clips slices at the dataset length, as does
  `List.take`/`List.drop`).
* Python dicts that are only iterated in insertion order (`files_dict`)
  become lists, list order standing for insertion order.
* numpy float learning rates become rationals (exact arithmetic; the claims
  about them are algebraic identities, not rounding statements).
* Fallible code returns `Except String`; a raised exception is an
  `Except.error` carrying the message.
* Python generators become functions returning the full (finite) list of
  yielded values; an exception raised on first `next()` (before any yield)
  becomes `Except.error` with no list produced.
-/

namespace OrcaNet

/-! ## Learning rate (orcanet/backend.py, `get_learning_rate`) -/

/-- The user-supplied learning rate (`orga.cfg.learning_rate`). The source
distinguishes the three shapes at runtime by attempted coercion
(float / length-2 tuple / 2-parameter callable); the embedding uses a tagged
variant with the same three cases. -/
inductive UserLR where
  | const (lr : ℚ)
  | pair (lr_init lr_decay : ℚ)
  | func (f : ℕ → ℕ → ℚ)

/-- Embedding of `backend.get_learning_rate(epoch, user_lr, no_train_files)`
(backend.py lines 357-415). `epoch` is the 1-based (epoch, fileno) pair.
The decaying case is line 399:
`lr = lr_init * (1 - lr_decay) ** (epoch[1] + epoch[0] * no_train_files)`. -/
def get_learning_rate (epoch : ℕ × ℕ) (user_lr : UserLR) (no_train_files : ℕ) : ℚ :=
  match user_lr with
  | .const lr => lr
  | .pair lr_init lr_decay =>
      lr_init * (1 - lr_decay) ^ (epoch.2 + epoch.1 * no_train_files)
  | .func f => f epoch.1 epoch.2

/-- The decaying learning rate as the spec states it: `lr_init` times
`(1 - lr_decay)` raised to the number of files elapsed since the start of
training, `(epoch - 1) * n_train_files + (fileno - 1)`. Stated separately
from `get_learning_rate` so the two can be compared. -/
def spec_learning_rate_decay (lr_init lr_decay : ℚ) (epoch : ℕ × ℕ)
    (no_train_files : ℕ) : ℚ :=
  lr_init * (1 - lr_decay) ^ ((epoch.1 - 1) * no_train_files + (epoch.2 - 1))

/-! ## Validation schedule (orcanet/core.py, `Organizer.val_is_due`) -/

/-- Embedding of `Organizer.val_is_due` (core.py lines 564-576):
`(epoch[1] == n_train_files) or (validate_interval is not None and
epoch[1] % validate_interval == 0)`. The function reads only the file
number, the file count and the interval; it has no access to any
validation history. -/
def val_is_due (epoch : ℕ × ℕ) (n_train_files : ℕ)
    (validate_interval : Option ℕ) : Bool :=
  (epoch.2 == n_train_files) ||
    (match validate_interval with
     | none => false
     | some k => epoch.2 % k == 0)

/-! ## Batch streaming (orcanet/backend.py, `hdf5_batch_generator`) -/

/-- One opened h5 file: the samples datagroup (`cfg.key_samples`, default
"x") and the labels datagroup (`cfg.key_labels`, default "y"). -/
structure H5File (α β : Type) where
  xdata : List α
  ydata : List β

/-- The slice of the configuration object that `hdf5_batch_generator`
reads. `xs_mean` is the per-input zero-center image (`orga.get_xs_mean()`),
already turned into the elementwise subtraction it is used for
(`np.subtract(batch, xs_mean[input_key])`), indexed by input position;
`none` when `zero_center` is off. `label_modifier` is
`orga.cfg.label_modifier` (or the auto label modifier). -/
structure GenCfg (α β γ : Type) where
  batchsize : ℕ
  max_queue_size : ℕ
  sample_modifier : Option (List (List α) → List (List α))
  label_modifier : List β → γ
  xs_mean : Option (ℕ → α → α)

/-- One yielded batch: `xs` holds one sample slice per input file (in
`files_dict` order), `ys` is the output of the label modifier, and
`y_values` is the raw label slice (yielded additionally when
`yield_mc_info` is set). -/
structure Batch (α β γ : Type) where
  xs : List (List α)
  ys : γ
  y_values : List β

/-- Leading dimension of a batch: the length of the first input's sample
array. -/
def Batch.n_samples {α β γ : Type} (b : Batch α β γ) : ℕ :=
  (b.xs.headD []).length

/-- Embedding of `int(np.ceil(f_size / batchsize))` for positive ints. -/
def ceil_div (a b : ℕ) : ℕ := (a + b - 1) / b

/-- The body of the generator's for-loop for one entry `sample_n` of
`sample_pos` (backend.py lines 330-354): slice every input's samples,
zero-center, slice the first file's labels, apply the modifiers. -/
def read_batch {α β γ : Type} (cfg : GenCfg α β γ) (files : List (H5File α β))
    (batchsize sample_n : ℕ) : Batch α β γ :=
  let xs0 := files.map fun f => (f.xdata.drop sample_n).take batchsize
  let xs1 :=
    match cfg.xs_mean with
    | none => xs0
    | some m => xs0.mapIdx fun i col => col.map (m i)
  let xs :=
    match cfg.sample_modifier with
    | none => xs1
    | some sm => sm xs1
  let y_values :=
    match files with
    | [] => []
    | f0 :: _ => (f0.ydata.drop sample_n).take batchsize
  { xs := xs, ys := cfg.label_modifier y_values, y_values := y_values }

/-- Embedding of `backend.hdf5_batch_generator` (backend.py lines 234-354).
`shuffle_order` stands for the permutation that `np.random.shuffle` picks
for this call; it is applied only when `shuffle` is true. The generator
protocol is embedded as the full finite list of yields; an exception on
startup (empty `files_dict`, mismatched file lengths, zero batch size) is
an `Except.error` and produces no batches at all. -/
def hdf5_batch_generator {α β γ : Type} (cfg : GenCfg α β γ) (shuffle : Bool)
    (shuffle_order : List ℕ → List ℕ) (files : List (H5File α β))
    (f_size : Option ℕ) : Except String (List (Batch α β γ)) :=
  -- "If the batchsize is larger than the f_size, make batchsize smaller
  --  or nothing would be yielded" (lines 284-288)
  let batchsize :=
    match f_size with
    | some n => if n < cfg.batchsize then n else cfg.batchsize
    | none => cfg.batchsize
  -- open the files and make sure they have the same length (lines 304-317);
  -- an empty files_dict makes `file_lengths[0]` an IndexError
  match files with
  | [] => Except.error "IndexError: list index out of range"
  | f0 :: rest =>
    let file_lengths := f0.xdata.length :: rest.map fun f => f.xdata.length
    if file_lengths.all fun l => l == f0.xdata.length then
      let fsize := match f_size with | some n => n | none => f0.xdata.length
      if batchsize == 0 then
        Except.error "ZeroDivisionError: division by zero"
      else
        -- number of batches available (line 322)
        let total_no_of_batches := ceil_div fsize batchsize
        -- positions of the samples in the file (line 324)
        let sample_pos0 := (List.range total_no_of_batches).map (· * batchsize)
        let sample_pos1 := if shuffle then shuffle_order sample_pos0 else sample_pos0
        -- append some samples due to preloading by fit_generator (line 328)
        let sample_pos := sample_pos1 ++ sample_pos1.take cfg.max_queue_size
        Except.ok (sample_pos.map (read_batch cfg (f0 :: rest) batchsize))
    else
      Except.error ("All data files must have the same length! Yours have: "
        ++ toString file_lengths)

/-- The batch size the generator actually uses when `f_size = some n`
(backend.py lines 286-288). -/
def eff_batchsize (batchsize n : ℕ) : ℕ :=
  if n < batchsize then n else batchsize

/-- The generator's non-wrap start offsets: `np.arange(total) * batchsize`
(backend.py line 324). -/
def nonwrap_offsets (fsize batchsize : ℕ) : List ℕ :=
  (List.range (ceil_div fsize batchsize)).map (· * batchsize)

/-- The generator's full offset sequence: the (optionally shuffled)
non-wrap offsets followed by their first `max_queue_size` entries again
(backend.py lines 324-328). -/
def wrap_offsets (shuffle : Bool) (shuffle_order : List ℕ → List ℕ)
    (fsize batchsize max_queue_size : ℕ) : List ℕ :=
  let pos1 := if shuffle then shuffle_order (nonwrap_offsets fsize batchsize)
              else nonwrap_offsets fsize batchsize
  pos1 ++ pos1.take max_queue_size

/-! ## Training driver (orcanet/core.py, `Organizer.train`)

The driver consults two durable stores: the schedule history (rows written
by the summary logger, read back through `IOHandler.get_latest_epoch`) and
the saved-model artifacts on disk (checked through `os.path.isfile` on
`IOHandler.get_model_path`). `in_out.py` is not among the sources, so the
IOHandler helpers are modelled from the spec; the check-then-raise-then-
train-then-save sequence itself is core.py lines 165-209. -/

/-- Modelled from the spec: `IOHandler.get_latest_epoch` (in_out.py, not
among the sources) — the highest trained (epoch, fileno) position under the
lexicographic order, `none` if no training has occurred (spec section 4.2,
`latest_position`). -/
def get_latest_epoch (history : List (ℕ × ℕ)) : Option (ℕ × ℕ) :=
  history.foldl
    (fun acc p =>
      match acc with
      | none => some p
      | some q => if q.1 < p.1 ∨ (q.1 = p.1 ∧ q.2 < p.2) then some p else some q)
    none

/-- Modelled from the spec: `IOHandler.get_next_epoch` (in_out.py, not among
the sources) — the successor of the latest position under the total order,
(1, 1) if none exists (spec section 4.2, `next_position`). -/
def get_next_epoch (latest : Option (ℕ × ℕ)) (n_train_files : ℕ) : ℕ × ℕ :=
  match latest with
  | none => (1, 1)
  | some (e, f) => if f < n_train_files then (e, f + 1) else (e + 1, 1)

/-- Observable effects of one `Organizer.train` call, in order: the
training pass over one file (`backend.train_model`) and the write of the
model artifact (`model.save(model_path)`). -/
inductive TrainEvent where
  | train_pass (pos : ℕ × ℕ)
  | save_model (pos : ℕ × ℕ)
deriving DecidableEq

/-- The durable state that `Organizer.train` reads and writes: the schedule
history rows (positions with a training record) and the set of positions
whose model artifact exists on disk. Model paths are named deterministically
from (epoch, fileno), so the disk is a set of positions. -/
structure OrgaState where
  history : List (ℕ × ℕ)
  disk : List (ℕ × ℕ)
deriving DecidableEq

/-- Embedding of `Organizer.train` (core.py lines 141-222), restricted to
its schedule/persistence skeleton. It determines the next position, raises
`FileExistsError` if that position's model artifact already exists on disk
(lines 181-184, before `backend.train_model` and `model.save` run), and
otherwise trains, saves the artifact and appends the history row. The
returned event list records which passes and writes happened. -/
def Organizer.train (st : OrgaState) (n_train_files : ℕ) :
    Except String (OrgaState × List TrainEvent) :=
  let next_epoch := get_next_epoch (get_latest_epoch st.history) n_train_files
  if next_epoch ∈ st.disk then
    Except.error ("Can not train model in epoch " ++ toString next_epoch.1
      ++ " file " ++ toString next_epoch.2
      ++ ", this model has already been saved!")
  else
    Except.ok
      ({ history := next_epoch :: st.history, disk := next_epoch :: st.disk },
       [TrainEvent.train_pass next_epoch, TrainEvent.save_model next_epoch])

/-! ## Prediction (orcanet/core.py, `Organizer.predict` and
`Organizer._check_if_pred_already_done`) -/

/-- Observable effects of one `Organizer.predict` call: loading the saved
model, writing the prediction output for one validation file group, and
writing the concatenated prediction file. -/
inductive PredEvent where
  | load_model
  | write_pred (f_number : ℕ)
  | write_concatenated
deriving DecidableEq

/-- The durable state that `Organizer.predict` reads and writes for one
fixed (epoch, fileno): the numbers of the validation file groups whose
prediction file exists in the predictions subfolder, and the contents of
the predictions/concatenated folder (`none` when that folder is absent). -/
structure PredictState where
  preds : List ℕ
  conc_files : Option (List String)
deriving DecidableEq

/-- Modelled from the spec: `IOHandler.get_latest_prediction_file_no`
(in_out.py, not among the sources) — the highest validation-file number for
which a prediction file of this (epoch, fileno) exists, `none` if there is
none. -/
def get_latest_prediction_file_no (preds : List ℕ) : Option ℕ :=
  preds.max?

/-- Modelled from the spec: `IOHandler.get_pred_files_list` (in_out.py, not
among the sources) — the paths of the existing prediction files for this
(epoch, fileno), one per predicted validation file group, named
deterministically. -/
def get_pred_files_list (epoch fileno : ℕ) (preds : List ℕ) : List String :=
  preds.map fun k =>
    "predictions/pred_model_epoch_" ++ toString epoch ++ "_file_"
      ++ toString fileno ++ "_on_val_file_" ++ toString k ++ ".h5"

/-- Embedding of `Organizer._check_if_pred_already_done` (core.py lines
427-449): true iff the latest prediction file number exists and equals the
total number of validation files. -/
def check_if_pred_already_done (preds : List ℕ) (n_val_files : ℕ) : Bool :=
  match get_latest_prediction_file_no preds with
  | none => false
  | some latest => latest == n_val_files

/-- Embedding of `Organizer.predict` (core.py lines 277-342) for an
explicitly given (epoch, fileno). If the prediction is already fully done,
the existing file paths are returned and nothing is loaded or written
(lines 310-313); otherwise the model is loaded and every validation file
group is predicted (modelled from the spec, since the writing happens via
IOHandler paths not among the sources). The trailing concatenation branch
runs only when `concatenate` is true and there is more than one validation
file. -/
def Organizer.predict (epoch fileno : ℕ) (st : PredictState) (n_val_files : ℕ)
    (concatenate : Bool) :
    Except String (List String × List PredEvent × PredictState) :=
  let is_pred_done := check_if_pred_already_done st.preds n_val_files
  let step :=
    if is_pred_done then
      (get_pred_files_list epoch fileno st.preds, ([] : List PredEvent), st)
    else
      let preds' := List.range' 1 n_val_files
      (get_pred_files_list epoch fileno preds',
       PredEvent.load_model :: preds'.map PredEvent.write_pred,
       { st with preds := preds' })
  let pred_filepaths := step.1
  let events := step.2.1
  let st1 := step.2.2
  if concatenate ∧ 1 < n_val_files then
    match st1.conc_files with
    | none =>
        let conc := "predictions/concatenated/pred_model_epoch_"
          ++ toString epoch ++ "_file_" ++ toString fileno ++ ".h5"
        Except.ok ([conc], events ++ [PredEvent.write_concatenated],
          { st1 with conc_files := some [conc] })
    | some fs =>
        match fs with
        | [] => Except.error "IndexError: list index out of range"
        | c :: _ => Except.ok ([c], events, st1)
  else
    Except.ok (pred_filepaths, events, st1)

/-! ## List file import (orcanet/core.py, `Configuration.import_list_file`
and `Configuration._extract_filepaths`) -/

/-- Parsed content of a toml list file: per list-input name, the key/value
pairs of its table (keys are expected to be among `train_files`,
`validation_files`, `inference_files`; values are file path tuples). -/
def TomlContent : Type := List (String × List (String × List String))

/-- One resolved split: list-input name to its tuple of file paths. -/
def FileSet : Type := List (String × List String)

/-- The keys `_extract_filepaths` accepts (core.py line 783). -/
def allowed_which : List String :=
  ["train_files", "validation_files", "inference_files"]

/-- The per-input collection loop of `Configuration._extract_filepaths`
(core.py lines 786-797): for each list input, reject unknown keys with
`NameError`, and collect the file tuple stored under `which` if present. -/
def collect_files (content : TomlContent) (which : String) :
    Except String FileSet :=
  match content with
  | [] => Except.ok []
  | (input_key, input_values) :: rest =>
    if input_values.all fun kv => allowed_which.contains kv.1 then
      match collect_files rest which with
      | Except.error e => Except.error e
      | Except.ok files_rest =>
          match input_values.find? fun kv => kv.1 == which with
          | some kv => Except.ok ((input_key, kv.2) :: files_rest)
          | none => Except.ok files_rest
    else
      Except.error ("NameError: Unknown argument in toml file: Must be either of "
        ++ toString allowed_which ++ " (input " ++ input_key ++ ")")

/-- Embedding of `Configuration._extract_filepaths` (core.py lines
776-803): collect the file tuples for `which` and fail with `ValueError`
if the inputs declare different numbers of files. -/
def extract_filepaths (content : TomlContent) (which : String) :
    Except String FileSet :=
  match collect_files content which with
  | Except.error e => Except.error e
  | Except.ok files =>
      let n_files := files.map fun kv => kv.2.length
      match n_files with
      | [] => Except.ok files
      | n0 :: restN =>
        if restN.all fun n => n == n0 then Except.ok files
        else Except.error ("ValueError: Input with different number of "
          ++ which ++ " in toml list")

/-- The slice of the `Configuration` object that `import_list_file` reads
and writes: the private `_files_dict` entries for the three splits and the
recorded `_list_file` path. A `none` entry is Python's `None`. -/
structure Configuration where
  train_files : Option FileSet
  val_files : Option FileSet
  inference_files : Option FileSet
  list_file : Option String

/-- Python's `files or None` (core.py line 772): an empty dict is falsy and
is stored as `None`. -/
def files_or_none (files : FileSet) : Option FileSet :=
  match files with
  | [] => none
  | f :: fs => some (f :: fs)

/-- Embedding of `Configuration.import_list_file` (core.py lines 748-774).
The source mutates `self` in place and raises on failure, so the embedding
returns the outcome together with the configuration as it stands after the
call: the already-loaded guard fires before any assignment, while a failure
inside the extraction loop keeps the assignments already made (the loop
runs train, then validation, then inference). -/
def Configuration.import_list_file (cfg : Configuration) (list_file : String)
    (content : TomlContent) : Except String Unit × Configuration :=
  match cfg.list_file with
  | some old =>
      (Except.error ("Can not load list file: Has already been loaded! ("
        ++ old ++ ")"), cfg)
  | none =>
    match extract_filepaths content "train_files" with
    | Except.error e => (Except.error e, cfg)
    | Except.ok tr =>
      let cfg1 := { cfg with train_files := files_or_none tr }
      match extract_filepaths content "validation_files" with
      | Except.error e => (Except.error e, cfg1)
      | Except.ok va =>
        let cfg2 := { cfg1 with val_files := files_or_none va }
        match extract_filepaths content "inference_files" with
        | Except.error e => (Except.error e, cfg2)
        | Except.ok inf =>
          let cfg3 := { cfg2 with inference_files := files_or_none inf }
          (Except.ok (), { cfg3 with list_file := some list_file })

/-! ## Concrete inputs used by the witnesses -/

/-- A single train file of 250 samples. -/
def file250 : H5File ℕ ℕ :=
  { xdata := List.replicate 250 0, ydata := List.replicate 250 1 }

/-- The default configuration slice: batchsize 64, max_queue_size 10, no
modifiers, no zero centering. -/
def cfg64 : GenCfg ℕ ℕ ℕ :=
  { batchsize := 64, max_queue_size := 10, sample_modifier := none,
    label_modifier := List.sum, xs_mean := none }

/-- A file with 3 samples. -/
def fileL3 : H5File ℕ ℕ := { xdata := [0, 0, 0], ydata := [1, 1, 1] }

/-- A file with 4 samples. -/
def fileL4 : H5File ℕ ℕ := { xdata := [0, 0, 0, 0], ydata := [1, 1, 1, 1] }

/-- First input file for the label-provenance witness. -/
def fileY1 : H5File ℕ ℕ := { xdata := [1, 2, 3], ydata := [10, 11, 12] }

/-- Second input file for the label-provenance witness. -/
def fileY2 : H5File ℕ ℕ := { xdata := [4, 5, 6], ydata := [99, 98, 97] }

/-- The second input file with its label dataset replaced. -/
def fileY2b : H5File ℕ ℕ := { xdata := [4, 5, 6], ydata := [0, 0, 0] }

/-- A state whose disk already holds the artifact of the next training
position (1, 1) while the schedule history is empty — the crash-between-
save-and-record situation. -/
def st_already_saved : OrgaState := { history := [], disk := [(1, 1)] }

/-- A state where both of two validation file groups are predicted. -/
def st_pred_done : PredictState := { preds := [1, 2], conc_files := none }

/-- A configuration that has already imported a list file. -/
def cfg_loaded : Configuration :=
  { train_files := some [("input_A", ["a1.h5", "a2.h5"])]
  , val_files := none
  , inference_files := none
  , list_file := some "old_list.toml" }

/-! ## Arithmetic facts about `ceil_div` and the batch size sequence -/

/-- The non-wrap batch sizes the generator produces for `total_samples`
samples and batch size `batchsize`: the length of the slice starting at
offset `i * batchsize` is `min batchsize (total_samples - i * batchsize)`. -/
def batch_sizes (total_samples batchsize : ℕ) : List ℕ :=
  (List.range (ceil_div total_samples batchsize)).map
    fun i => min batchsize (total_samples - i * batchsize)

lemma ceil_div_eq_pred_div_succ {L b : ℕ} (hb : 0 < b) (hL : 0 < L) :
    ceil_div L b = (L - 1) / b + 1 := by
  unfold ceil_div
  have h3 : L + b - 1 = (L - 1) + b := by omega
  rw [h3, Nat.add_div_right _ hb]

lemma ceil_div_of_le {L b : ℕ} (hb : 0 < b) (hL : 0 < L) (h : L ≤ b) :
    ceil_div L b = 1 := by
  rw [ceil_div_eq_pred_div_succ hb hL, Nat.div_eq_of_lt (by omega)]

lemma ceil_div_of_lt {L b : ℕ} (hb : 0 < b) (h : b < L) :
    ceil_div L b = ceil_div (L - b) b + 1 := by
  unfold ceil_div
  have h3 : L + b - 1 = ((L - b) + b - 1) + b := by omega
  rw [h3, Nat.add_div_right _ hb]

lemma ceil_div_pos {L b : ℕ} (hb : 0 < b) (hL : 0 < L) :
    0 < ceil_div L b := by
  rw [ceil_div_eq_pred_div_succ hb hL]
  exact Nat.succ_pos _

lemma pred_ceil_div_mul_lt {L b : ℕ} (hb : 0 < b) (hL : 0 < L) :
    (ceil_div L b - 1) * b < L := by
  rw [ceil_div_eq_pred_div_succ hb hL]
  simp only [Nat.add_sub_cancel]
  have h := Nat.div_mul_le_self (L - 1) b
  omega

lemma le_ceil_div_mul {L b : ℕ} (hb : 0 < b) (hL : 0 < L) :
    L ≤ ceil_div L b * b := by
  rw [ceil_div_eq_pred_div_succ hb hL]
  have h : (L - 1) / b < (L - 1) / b + 1 := Nat.lt_succ_self _
  have h2 : L - 1 < ((L - 1) / b + 1) * b :=
    (Nat.div_lt_iff_lt_mul hb).mp h
  omega

lemma batch_sizes_closed {b : ℕ} (hb : 0 < b) :
    ∀ L, 0 < L → batch_sizes L b =
      List.replicate (ceil_div L b - 1) b ++ [L - (ceil_div L b - 1) * b] := by
  intro L
  induction L using Nat.strong_induction_on with
  | _ L ih =>
    intro hL
    by_cases hLb : L ≤ b
    · rw [batch_sizes, ceil_div_of_le hb hL hLb,
        show List.range 1 = [0] from rfl]
      simp only [List.map_cons, List.map_nil, Nat.sub_self,
        List.replicate_zero, List.nil_append, Nat.zero_mul, Nat.sub_zero]
      congr 1
      omega
    · push_neg at hLb
      have hL' : 0 < L - b := by omega
      have hrec := ih (L - b) (by omega) hL'
      have hshift : batch_sizes L b = b :: batch_sizes (L - b) b := by
        rw [batch_sizes, batch_sizes, ceil_div_of_lt hb hLb,
          List.range_succ_eq_map, List.map_cons, List.map_map]
        congr 1
        · omega
        · apply List.map_congr_left
          intro i _
          have h4 : L - (i + 1) * b = L - b - i * b := by
            rw [Nat.succ_mul]; omega
          simp [Function.comp, h4]
      rw [hshift, hrec, ceil_div_of_lt hb hLb]
      have hc : 0 < ceil_div (L - b) b := ceil_div_pos hb hL'
      obtain ⟨c, hcEq⟩ : ∃ c, ceil_div (L - b) b = c + 1 := ⟨_, (Nat.succ_pred_eq_of_pos hc).symm⟩
      rw [hcEq]
      simp only [Nat.add_sub_cancel]
      rw [List.replicate_succ, List.cons_append]
      have : L - (c + 1) * b = L - b - c * b := by
        rw [Nat.succ_mul]; omega
      rw [this]

lemma batch_sizes_sum {L b : ℕ} (hb : 0 < b) (hL : 0 < L) :
    (batch_sizes L b).sum = L := by
  rw [batch_sizes_closed hb L hL, List.sum_append, List.sum_replicate,
    List.sum_cons, List.sum_nil, smul_eq_mul]
  have h := pred_ceil_div_mul_lt hb hL
  omega

lemma batch_sizes_length {L b : ℕ} :
    (batch_sizes L b).length = ceil_div L b := by
  rw [batch_sizes, List.length_map, List.length_range]

lemma last_batch_le {L b : ℕ} (hb : 0 < b) (hL : 0 < L) :
    L - (ceil_div L b - 1) * b ≤ b := by
  have h := le_ceil_div_mul hb hL
  have hc := ceil_div_pos hb hL
  obtain ⟨c, hcEq⟩ : ∃ c, ceil_div L b = c + 1 := ⟨_, (Nat.succ_pred_eq_of_pos hc).symm⟩
  rw [hcEq] at h ⊢
  simp only [Nat.add_sub_cancel]
  have : (c + 1) * b = c * b + b := Nat.succ_mul c b
  omega

/-- The effective batch size after the f_size clamp produces the same batch
count as the configured one. -/
lemma ceil_div_clamp {L b : ℕ} (hb : 0 < b) (hL : 0 < L) :
    ceil_div L (if L < b then L else b) = ceil_div L b := by
  by_cases h : L < b
  · rw [if_pos h, ceil_div_of_le hL hL le_rfl, ceil_div_of_le hb hL (le_of_lt h)]
  · rw [if_neg h]

/-- The effective batch size after the f_size clamp produces the same batch
size sequence, expressed with the configured batch size. -/
lemma batch_sizes_clamp {L b : ℕ} (hb : 0 < b) (hL : 0 < L) :
    batch_sizes L (if L < b then L else b) =
      List.replicate (ceil_div L b - 1) b ++ [L - (ceil_div L b - 1) * b] := by
  by_cases h : L < b
  · rw [if_pos h, batch_sizes_closed hL L hL,
      ceil_div_of_le hL hL le_rfl, ceil_div_of_le hb hL (le_of_lt h)]
    simp
  · rw [if_neg h, batch_sizes_closed hb L hL]

/-! ## Shape of a successful generator run -/

/-- When the parallel files agree in length and the sizes are positive, the
generator succeeds and yields exactly the batches read at its wrap-extended
offset sequence. -/
lemma hdf5_batch_generator_some_eq {α β γ : Type} (cfg : GenCfg α β γ)
    (shuffle : Bool) (perm : List ℕ → List ℕ) (f0 : H5File α β)
    (rest : List (H5File α β)) (n : ℕ) (hn : 0 < n) (hb : 0 < cfg.batchsize)
    (hlen : ∀ f ∈ rest, f.xdata.length = f0.xdata.length) :
    hdf5_batch_generator cfg shuffle perm (f0 :: rest) (some n) =
      Except.ok
        ((wrap_offsets shuffle perm n (eff_batchsize cfg.batchsize n)
            cfg.max_queue_size).map
          (read_batch cfg (f0 :: rest) (eff_batchsize cfg.batchsize n))) := by
  have hcond : ((f0.xdata.length :: rest.map fun f => f.xdata.length).all
      fun l => l == f0.xdata.length) = true := by
    rw [List.all_eq_true]
    intro l hl
    rcases List.mem_cons.mp hl with h | h
    · exact beq_iff_eq.mpr h
    · obtain ⟨f, hf, rfl⟩ := List.mem_map.mp h
      exact beq_iff_eq.mpr (hlen f hf)
  have hbz : ((if n < cfg.batchsize then n else cfg.batchsize) == 0) = false := by
    by_cases h : n < cfg.batchsize
    · simp only [if_pos h, beq_eq_false_iff_ne, ne_eq]
      omega
    · simp only [if_neg h, beq_eq_false_iff_ne, ne_eq]
      omega
  unfold hdf5_batch_generator
  dsimp only
  rw [if_pos hcond]
  simp only [hbz, Bool.false_eq_true, if_false]
  rfl

lemma take_length_append {δ : Type} {l1 l2 : List δ} {n : ℕ}
    (h : l1.length = n) : (l1 ++ l2).take n = l1 := by
  subst h; exact List.take_left l1 l2

lemma drop_length_append {δ : Type} {l1 l2 : List δ} {n : ℕ}
    (h : l1.length = n) : (l1 ++ l2).drop n = l2 := by
  subst h; exact List.drop_left l1 l2

/-- The leading dimension of the batch read at offset `s` is the clipped
slice length of the first input file. -/
lemma read_batch_n_samples {α β γ : Type} (cfg : GenCfg α β γ)
    (f0 : H5File α β) (rest : List (H5File α β)) (b s : ℕ)
    (hsm : cfg.sample_modifier = none) (hzc : cfg.xs_mean = none) :
    (read_batch cfg (f0 :: rest) b s).n_samples =
      min b (f0.xdata.length - s) := by
  unfold read_batch Batch.n_samples
  rw [hsm, hzc]
  simp [List.length_take, List.length_drop]

/-- Reading the non-wrap offsets produces exactly the `batch_sizes`
sequence of leading dimensions. -/
lemma nonwrap_read_sizes {α β γ : Type} (cfg : GenCfg α β γ)
    (f0 : H5File α β) (rest : List (H5File α β)) (n b : ℕ)
    (hsm : cfg.sample_modifier = none) (hzc : cfg.xs_mean = none)
    (hf0 : f0.xdata.length = n) :
    ((nonwrap_offsets n b).map (read_batch cfg (f0 :: rest) b)).map
        Batch.n_samples = batch_sizes n b := by
  unfold nonwrap_offsets batch_sizes
  rw [List.map_map, List.map_map]
  apply List.map_congr_left
  intro i _
  simp [Function.comp, read_batch_n_samples cfg f0 rest b _ hsm hzc, hf0]

/-- C3: for every batch size and every total sample count equal to the
number of samples in each input file, the generator succeeds and yields
exactly `ceil(total_samples / batch_size)` non-wrap batches; their leading
dimensions are `batch_size` for every batch but the last, whose size is the
(possibly smaller) remainder, and they sum to `total_samples`. -/
theorem nonwrap_batch_sizes {α β γ : Type} (cfg : GenCfg α β γ)
    (f0 : H5File α β) (rest : List (H5File α β)) (L : ℕ)
    (hb : 0 < cfg.batchsize) (hL : 0 < L)
    (hf0 : f0.xdata.length = L) (hlen : ∀ f ∈ rest, f.xdata.length = L)
    (hsm : cfg.sample_modifier = none) (hzc : cfg.xs_mean = none) :
    ∃ batches,
      hdf5_batch_generator cfg false id (f0 :: rest) (some L) =
        Except.ok batches ∧
      (batches.take (ceil_div L cfg.batchsize)).length =
        ceil_div L cfg.batchsize ∧
      (batches.take (ceil_div L cfg.batchsize)).map Batch.n_samples =
        List.replicate (ceil_div L cfg.batchsize - 1) cfg.batchsize
          ++ [L - (ceil_div L cfg.batchsize - 1) * cfg.batchsize] ∧
      ((batches.take (ceil_div L cfg.batchsize)).map Batch.n_samples).sum
        = L ∧
      L - (ceil_div L cfg.batchsize - 1) * cfg.batchsize ≤ cfg.batchsize := by
  have hlen' : ∀ f ∈ rest, f.xdata.length = f0.xdata.length := by
    intro f hf; rw [hlen f hf, hf0]
  have hgen := hdf5_batch_generator_some_eq cfg false id f0 rest L hL hb hlen'
  set b' := eff_batchsize cfg.batchsize L with hb'
  have hbpos : 0 < b' := by
    rw [hb']; unfold eff_batchsize; split <;> omega
  have hceil : ceil_div L b' = ceil_div L cfg.batchsize := by
    rw [hb']; unfold eff_batchsize; exact ceil_div_clamp hb hL
  have hwrap : wrap_offsets false id L b' cfg.max_queue_size =
      nonwrap_offsets L b' ++ (nonwrap_offsets L b').take cfg.max_queue_size := by
    unfold wrap_offsets; simp
  have hlenA : (List.map (read_batch cfg (f0 :: rest) b')
      (nonwrap_offsets L b')).length = ceil_div L cfg.batchsize := by
    rw [List.length_map, nonwrap_offsets, List.length_map,
      List.length_range, hceil]
  refine ⟨_, hgen, ?_, ?_, ?_, ?_⟩
  · rw [hwrap, List.map_append, take_length_append hlenA, hlenA]
  · rw [hwrap, List.map_append, take_length_append hlenA,
      nonwrap_read_sizes cfg f0 rest L b' hsm hzc hf0, hb']
    unfold eff_batchsize
    exact batch_sizes_clamp hb hL
  · rw [hwrap, List.map_append, take_length_append hlenA,
      nonwrap_read_sizes cfg f0 rest L b' hsm hzc hf0]
    exact batch_sizes_sum hbpos hL
  · exact last_batch_le hb hL

/-- C4: the generator appends the first `max_queue_size` start offsets
again at the end of the (possibly shuffled) offset sequence, so one full
iteration yields `ceil(total/batch) + min(max_queue_size, ceil(total/batch))`
batches, and the trailing ones repeat the leading batches verbatim. -/
theorem wraparound_tail {α β γ : Type} (cfg : GenCfg α β γ) (shuffle : Bool)
    (perm : List ℕ → List ℕ) (f0 : H5File α β) (rest : List (H5File α β))
    (L : ℕ) (hb : 0 < cfg.batchsize) (hL : 0 < L)
    (hlen : ∀ f ∈ rest, f.xdata.length = f0.xdata.length)
    (hperm : ∀ l, (perm l).length = l.length) :
    ∃ batches,
      hdf5_batch_generator cfg shuffle perm (f0 :: rest) (some L) =
        Except.ok batches ∧
      batches.length = ceil_div L cfg.batchsize
        + min cfg.max_queue_size (ceil_div L cfg.batchsize) ∧
      batches.drop (ceil_div L cfg.batchsize) =
        (batches.take (ceil_div L cfg.batchsize)).take cfg.max_queue_size := by
  have hgen := hdf5_batch_generator_some_eq cfg shuffle perm f0 rest L hL hb hlen
  set b' := eff_batchsize cfg.batchsize L with hb'
  have hceil : ceil_div L b' = ceil_div L cfg.batchsize := by
    rw [hb']; unfold eff_batchsize; exact ceil_div_clamp hb hL
  set pos1 := if shuffle then perm (nonwrap_offsets L b')
              else nonwrap_offsets L b' with hpos1
  have h1 : (nonwrap_offsets L b').length = ceil_div L cfg.batchsize := by
    rw [nonwrap_offsets, List.length_map, List.length_range, hceil]
  have hlenpos : pos1.length = ceil_div L cfg.batchsize := by
    rw [hpos1]
    cases shuffle <;> simp [hperm, h1]
  have hwrap : wrap_offsets shuffle perm L b' cfg.max_queue_size =
      pos1 ++ pos1.take cfg.max_queue_size := by
    rw [wrap_offsets]
  have hA : (List.map (read_batch cfg (f0 :: rest) b') pos1).length =
      ceil_div L cfg.batchsize := by
    rw [List.length_map, hlenpos]
  refine ⟨_, hgen, ?_, ?_⟩
  · rw [hwrap, List.map_append, List.length_append, List.length_map,
      List.length_map, List.length_take, hlenpos]
  · rw [hwrap, List.map_append, List.map_take, drop_length_append hA,
      take_length_append hA]

/-- C7: if the parallel input files do not all contain the same number of
samples, the generator fails on startup with an error (an `Except.error`,
so no batch is produced at all). -/
theorem inconsistent_files_error {α β γ : Type} (cfg : GenCfg α β γ)
    (shuffle : Bool) (perm : List ℕ → List ℕ) (f_size : Option ℕ)
    (f0 : H5File α β) (rest : List (H5File α β)) (g : H5File α β)
    (hg : g ∈ rest) (hne : g.xdata.length ≠ f0.xdata.length) :
    ∃ e, hdf5_batch_generator cfg shuffle perm (f0 :: rest) f_size =
      Except.error e := by
  have hcond : ((f0.xdata.length :: rest.map fun f => f.xdata.length).all
      fun l => l == f0.xdata.length) = false := by
    rw [List.all_eq_false]
    refine ⟨g.xdata.length, List.mem_cons_of_mem _ (List.mem_map_of_mem _ hg), ?_⟩
    simpa using hne
  unfold hdf5_batch_generator
  dsimp only
  rw [if_neg (by rw [hcond]; exact Bool.false_ne_true)]
  exact ⟨_, rfl⟩

/-- C8: when the requested sample count `f_size` is smaller than the
configured batch size, the generator lowers the effective batch size to
`f_size` and yields exactly one non-wrap batch holding all `f_size`
samples (instead of yielding nothing). -/
theorem small_fsize_one_batch {α β γ : Type} (cfg : GenCfg α β γ)
    (perm : List ℕ → List ℕ) (f0 : H5File α β) (rest : List (H5File α β))
    (n : ℕ) (hn : 0 < n) (hnb : n < cfg.batchsize)
    (hlen : ∀ f ∈ rest, f.xdata.length = f0.xdata.length)
    (hnL : n ≤ f0.xdata.length)
    (hsm : cfg.sample_modifier = none) (hzc : cfg.xs_mean = none) :
    ∃ batches,
      hdf5_batch_generator cfg false perm (f0 :: rest) (some n) =
        Except.ok batches ∧
      eff_batchsize cfg.batchsize n = n ∧
      ceil_div n cfg.batchsize = 1 ∧
      (batches.take (ceil_div n cfg.batchsize)).map Batch.n_samples = [n] := by
  have hb : 0 < cfg.batchsize := lt_trans hn hnb
  have hgen := hdf5_batch_generator_some_eq cfg false perm f0 rest n hn hb hlen
  have heff : eff_batchsize cfg.batchsize n = n := by
    unfold eff_batchsize; rw [if_pos hnb]
  have hceil : ceil_div n cfg.batchsize = 1 :=
    ceil_div_of_le hb hn (le_of_lt hnb)
  have hceiln : ceil_div n n = 1 := ceil_div_of_le hn hn le_rfl
  have hnw : nonwrap_offsets n n = [0] := by
    rw [nonwrap_offsets, hceiln, show List.range 1 = [0] from rfl]
    simp
  refine ⟨_, hgen, heff, hceil, ?_⟩
  rw [heff, hceil]
  have hwrap : wrap_offsets false perm n n cfg.max_queue_size =
      [0] ++ [0].take cfg.max_queue_size := by
    rw [wrap_offsets, hnw]
    simp
  rw [hwrap, List.map_append]
  rw [show (1 : ℕ) = (([0].map (read_batch cfg (f0 :: rest) n)).length)
    from by simp, List.take_left]
  simp only [List.map_cons, List.map_nil]
  rw [read_batch_n_samples cfg f0 rest n 0 hsm hzc]
  rw [Nat.sub_zero, Nat.min_eq_left hnL]

/-- C9: the yielded labels are taken from the first input file alone — two
file lists with identical sample datasets and identical first-file label
dataset make the generator produce identical output, whatever the label
datasets of the remaining parallel files hold. -/
theorem labels_from_first_input_only {α β γ : Type} (cfg : GenCfg α β γ)
    (shuffle : Bool) (perm : List ℕ → List ℕ) (f_size : Option ℕ)
    (files1 files2 : List (H5File α β))
    (hx : files1.map H5File.xdata = files2.map H5File.xdata)
    (hy : files1.head?.map H5File.ydata = files2.head?.map H5File.ydata) :
    hdf5_batch_generator cfg shuffle perm files1 f_size =
      hdf5_batch_generator cfg shuffle perm files2 f_size := by
  cases files1 with
  | nil =>
    cases files2 with
    | nil => rfl
    | cons f2 r2 => simp at hx
  | cons f1 r1 =>
    cases files2 with
    | nil => simp at hx
    | cons f2 r2 =>
      simp only [List.map_cons, List.cons.injEq] at hx
      obtain ⟨hx1, hxr⟩ := hx
      simp only [List.head?_cons, Option.map_some'] at hy
      have hy1 : f1.ydata = f2.ydata := Option.some.inj hy
      have hrb : ∀ b s, read_batch cfg (f1 :: r1) b s
          = read_batch cfg (f2 :: r2) b s := by
        intro b s
        have hslices : (f1 :: r1).map (fun f => (f.xdata.drop s).take b)
            = (f2 :: r2).map (fun f => (f.xdata.drop s).take b) := by
          have h := congrArg
            (List.map fun xd : List α => (xd.drop s).take b)
            (by rw [List.map_cons, List.map_cons, hx1, hxr] :
              (f1 :: r1).map H5File.xdata = (f2 :: r2).map H5File.xdata)
          simpa [List.map_map, Function.comp] using h
        unfold read_batch
        dsimp only
        rw [hslices, hy1]
      have hl1 : f1.xdata.length = f2.xdata.length := by rw [hx1]
      have hlr : r1.map (fun f => f.xdata.length)
          = r2.map (fun f => f.xdata.length) := by
        have h := congrArg (List.map List.length) hxr
        simpa [List.map_map, Function.comp] using h
      have hrbf : ∀ b, read_batch cfg (f1 :: r1) b
          = read_batch cfg (f2 :: r2) b := fun b => funext (hrb b)
      unfold hdf5_batch_generator
      dsimp only
      rw [hl1, hlr]
      simp only [hrbf]

/-! ## Claim theorems on the core (learning rate, train, predict,
val_is_due, import_list_file) -/

/-- C1: the source's decaying learning rate uses the exponent
`fileno + epoch * n_train_files` (both 1-based), not the claimed number of
files elapsed since the start of training `(epoch-1) * n_train_files +
(fileno-1)`. Already at the very first training position (1, 1) with 5
training files, `lr_init = 1` and `lr_decay = 1/2`, the code yields
`(1/2)^6 = 1/64` where the claim — and the `Configuration.learning_rate`
docstring, which fixes `lr_init` as the learning rate of epoch 1 file 1 —
requires `(1/2)^0 = 1`. -/
theorem get_learning_rate_decay_deviates :
    get_learning_rate (1, 1) (UserLR.pair 1 (1/2)) 5 = 1 / 64 ∧
    spec_learning_rate_decay 1 (1/2) (1, 1) 5 = 1 ∧
    get_learning_rate (1, 1) (UserLR.pair 1 (1/2)) 5 ≠
      spec_learning_rate_decay 1 (1/2) (1, 1) 5 := by
  refine ⟨?_, ?_, ?_⟩ <;>
    norm_num [get_learning_rate, spec_learning_rate_decay]

/-- C2: when the model artifact for the next training position already
exists on disk, `Organizer.train` raises `FileExistsError` before any
training pass or artifact write happens; and a successful `train` never
writes an artifact at a position that already has one, and keeps every
existing artifact. -/
theorem train_never_overwrites (st : OrgaState) (n : ℕ) :
    (get_next_epoch (get_latest_epoch st.history) n ∈ st.disk →
      ∃ e, Organizer.train st n = Except.error e) ∧
    ∀ st' tr, Organizer.train st n = Except.ok (st', tr) →
      (∀ p ∈ st.disk, TrainEvent.save_model p ∉ tr) ∧
      ∀ p ∈ st.disk, p ∈ st'.disk := by
  unfold Organizer.train
  by_cases h : get_next_epoch (get_latest_epoch st.history) n ∈ st.disk
  · rw [if_pos h]
    refine ⟨fun _ => ⟨_, rfl⟩, ?_⟩
    intro st' tr hok
    cases hok
  · rw [if_neg h]
    refine ⟨fun hmem => absurd hmem h, ?_⟩
    intro st' tr hok
    simp only [Except.ok.injEq, Prod.mk.injEq] at hok
    obtain ⟨h1, h2⟩ := hok
    subst h1
    subst h2
    constructor
    · intro p hp hmem
      simp only [List.mem_cons, List.not_mem_nil, or_false] at hmem
      rcases hmem with hmem | hmem
      · cases hmem
      · have hpe : p = get_next_epoch (get_latest_epoch st.history) n :=
          TrainEvent.save_model.inj hmem
        rw [hpe] at hp
        exact h hp
    · intro p hp
      exact List.mem_cons_of_mem _ hp

/-- C5: when prediction output already spans all validation file groups,
`Organizer.predict` (with concatenation off) returns the existing
prediction file paths with no model load and no write, leaving the state
untouched; a second call on the resulting state returns the same paths. -/
theorem predict_short_circuit (epoch fileno n_val : ℕ) (st : PredictState)
    (h : check_if_pred_already_done st.preds n_val = true) :
    Organizer.predict epoch fileno st n_val false =
      Except.ok (get_pred_files_list epoch fileno st.preds, [], st) ∧
    (Organizer.predict epoch fileno st n_val false).bind
        (fun r => Organizer.predict epoch fileno r.2.2 n_val false) =
      Except.ok (get_pred_files_list epoch fileno st.preds, [], st) := by
  have h1 : Organizer.predict epoch fileno st n_val false =
      Except.ok (get_pred_files_list epoch fileno st.preds, [], st) := by
    unfold Organizer.predict
    rw [h]
    simp
  refine ⟨h1, ?_⟩
  rw [h1]
  exact h1

/-- C6: `val_is_due` is true exactly when the file number equals the
number of training files or a set `validate_interval` divides the file
number; it is a pure function of schedule data (no validation history is
consulted). For 5 training files and interval 3 it holds on files 1..5
exactly at 3 and 5. -/
theorem val_is_due_schedule (epoch : ℕ × ℕ) (n_train_files : ℕ)
    (vi : Option ℕ) (hvi : vi ≠ some 0) :
    (val_is_due epoch n_train_files vi = true ↔
      epoch.2 = n_train_files ∨ ∃ k, vi = some k ∧ k ∣ epoch.2) ∧
    (List.range' 1 5).filter (fun f => val_is_due (1, f) 5 (some 3))
      = [3, 5] := by
  constructor
  · unfold val_is_due
    cases vi with
    | none => simp
    | some k => simp [Nat.dvd_iff_mod_eq_zero]
  · decide

/-- C10: calling `Configuration.import_list_file` when a list file has
already been imported fails with `ValueError` and leaves the configuration
— its train/val/inference file sets and the recorded list file path —
exactly as it was. -/
theorem import_list_file_already_loaded (cfg : Configuration) (lf : String)
    (content : TomlContent) (h : cfg.list_file ≠ none) :
    ∃ e, Configuration.import_list_file cfg lf content =
      (Except.error e, cfg) := by
  unfold Configuration.import_list_file
  cases hc : cfg.list_file with
  | none => exact absurd hc h
  | some old => exact ⟨_, rfl⟩

/-! ## Concrete witnesses -/

/-- Witness for C3 at total_samples 250 and batch size 64: four non-wrap
batches of sizes 64, 64, 64, 58 summing to 250. -/
theorem nonwrap_batch_sizes_witness :
    ∃ batches,
      hdf5_batch_generator cfg64 false id [file250] (some 250) =
        Except.ok batches ∧
      (batches.take 4).length = 4 ∧
      (batches.take 4).map Batch.n_samples = [64, 64, 64, 58] ∧
      ((batches.take 4).map Batch.n_samples).sum = 250 := by
  obtain ⟨batches, h1, h2, h3, h4, h5⟩ :=
    nonwrap_batch_sizes cfg64 file250 [] 250 (by decide) (by decide)
      (List.length_replicate 250 0) (by simp) rfl rfl
  have hc : ceil_div 250 cfg64.batchsize = 4 := by decide
  rw [hc] at h2 h3 h4
  refine ⟨batches, h1, h2, ?_, h4⟩
  rw [h3]
  decide

/-- Witness for C4 at total_samples 250, batch size 64, max_queue_size 10:
4 + min 10 4 = 8 batches, the last four repeating the first four. -/
theorem wraparound_tail_witness :
    ∃ batches,
      hdf5_batch_generator cfg64 false id [file250] (some 250) =
        Except.ok batches ∧
      batches.length = 8 ∧
      batches.drop 4 = (batches.take 4).take 10 := by
  obtain ⟨batches, h1, h2, h3⟩ :=
    wraparound_tail cfg64 false id file250 [] 250 (by decide) (by decide)
      (by simp) (fun l => rfl)
  have hc : ceil_div 250 cfg64.batchsize = 4 := by decide
  rw [hc] at h2 h3
  refine ⟨batches, h1, ?_, h3⟩
  rw [h2]
  decide

/-- Witness for C7: parallel files of 3 and 4 samples make the generator
fail on startup. -/
theorem inconsistent_files_error_witness :
    ∃ e, hdf5_batch_generator cfg64 false id [fileL3, fileL4] none =
      Except.error e :=
  inconsistent_files_error cfg64 false id none fileL3 [fileL4] fileL4
    (List.mem_singleton.mpr rfl) (by decide)

/-- Witness for C8: requesting 30 of 250 samples with batch size 64 lowers
the effective batch size to 30 and yields one non-wrap batch of 30. -/
theorem small_fsize_one_batch_witness :
    ∃ batches,
      hdf5_batch_generator cfg64 false id [file250] (some 30) =
        Except.ok batches ∧
      eff_batchsize cfg64.batchsize 30 = 30 ∧
      ceil_div 30 cfg64.batchsize = 1 ∧
      (batches.take (ceil_div 30 cfg64.batchsize)).map Batch.n_samples
        = [30] :=
  small_fsize_one_batch cfg64 id file250 [] 30 (by decide) (by decide)
    (by simp)
    (by rw [show file250.xdata = List.replicate 250 0 from rfl,
          List.length_replicate]
        norm_num)
    rfl rfl

/-- Witness for C9: replacing the second file's labels does not change the
generator's output. -/
theorem labels_from_first_input_only_witness :
    hdf5_batch_generator cfg64 false id [fileY1, fileY2] none =
      hdf5_batch_generator cfg64 false id [fileY1, fileY2b] none :=
  labels_from_first_input_only cfg64 false id none [fileY1, fileY2]
    [fileY1, fileY2b] (by decide) (by decide)

/-- Witness for C2: with the (1, 1) artifact on disk, `train` errors. -/
theorem train_never_overwrites_witness :
    ∃ e, Organizer.train st_already_saved 5 = Except.error e :=
  (train_never_overwrites st_already_saved 5).1 (by decide)

/-- Witness for C5: with groups 1 and 2 of 2 predicted, `predict` returns
the existing paths twice without events. -/
theorem predict_short_circuit_witness :
    Organizer.predict 3 4 st_pred_done 2 false =
      Except.ok (get_pred_files_list 3 4 st_pred_done.preds, [],
        st_pred_done) ∧
    (Organizer.predict 3 4 st_pred_done 2 false).bind
        (fun r => Organizer.predict 3 4 r.2.2 2 false) =
      Except.ok (get_pred_files_list 3 4 st_pred_done.preds, [],
        st_pred_done) :=
  predict_short_circuit 3 4 2 st_pred_done (by decide)

/-- Witness for C6 at epoch (1, 3), 5 training files, interval 3. -/
theorem val_is_due_schedule_witness :
    (val_is_due (1, 3) 5 (some 3) = true ↔
      (1, 3).2 = 5 ∨ ∃ k, (some 3 : Option ℕ) = some k ∧ k ∣ (1, 3).2) ∧
    (List.range' 1 5).filter (fun f => val_is_due (1, f) 5 (some 3))
      = [3, 5] :=
  val_is_due_schedule (1, 3) 5 (some 3) (by decide)

/-- Witness for C10: importing over `cfg_loaded` errors and returns the
configuration unchanged. -/
theorem import_list_file_already_loaded_witness :
    ∃ e, Configuration.import_list_file cfg_loaded "new_list.toml"
      ([] : TomlContent) = (Except.error e, cfg_loaded) :=
  import_list_file_already_loaded cfg_loaded "new_list.toml"
    ([] : TomlContent) (by decide)

end OrcaNet
